import Mathlib

/-!
Shallow embedding of the wormhole-gateway `initialize` instruction from
src/cross-chain/solana/programs/wormhole-gateway/src/processor/initialize.rs.

The instruction is an Anchor program entry point.  Anchor first parses the
accounts of the `Initialize` struct (deserializing every non-`init`
`Account<T>` field, which fails when the account does not exist), then checks
the declared constraints in field order (`seeds`/`bump` address checks,
`init` create-if-absent), and only then runs the handler body, which reads
derivation bumps out of `ctx.bumps` (a string-keyed map populated with one
entry per PDA account field, keyed by the field name) and writes the
`Custodian` record.  A Solana transaction is atomic: any error — including a
Rust panic such as an out-of-range map index — reverts every write.

Machine integers: `minting_limit` is a `u64`; no arithmetic is performed on
it, so it is modelled as a `Nat` together with the explicit range bound
`< 2 ^ 64` where the range matters.  Byte strings are `List Nat`.

Error taxonomy correspondence (spec section 7): `DerivationMismatch` is
Anchor's `ConstraintSeeds`, `PrerequisiteNotInitialized` is Anchor's
`AccountNotInitialized` raised while deserializing a dependency account,
`AlreadyInitialized` is the system program's "account already in use"
failure of an `init` constraint, and `BumpKeyMissing` is the Rust panic
raised by indexing `ctx.bumps` with a key that is not in the map.
-/

/-- Byte strings, one entry per byte. -/
abbrev Bytes := List Nat

/-- Encode an ASCII seed tag as bytes. -/
def bytesOfString (s : String) : Bytes := s.data.map Char.toNat

/-- Solana addresses: either an ordinary externally generated keypair address,
or a program-derived address (PDA), represented by its derivation inputs
(deriving program and seed list) — derivation is deterministic and
collision-resistant, so the derivation inputs identify the address. -/
inductive Pubkey where
  | external (id : Nat)
  | pda (program : Nat) (seeds : List Bytes)
deriving DecidableEq, Repr

/-- Modelled from the spec: the gateway program's own id (the deploy-time
program address; only its distinctness from other program ids matters). -/
def GATEWAY_PROGRAM_ID : Nat := 0

/-- Modelled from the spec: `tbtc::ID`, the native token-issuance program
named by the `seeds::program = tbtc::ID` constraint; its declaration is not
part of this file's sources. -/
def TBTC_PROGRAM_ID : Nat := 1

/-- Modelled from the spec: the external token-bridge program id owning the
wrapped mint and the sender/redeemer authorities. -/
def TOKEN_BRIDGE_PROGRAM_ID : Nat := 2

/-- `const TBTC_FOREIGN_TOKEN_CHAIN: u8 = 2` (compile-time constant). -/
def TBTC_FOREIGN_TOKEN_CHAIN : Nat := 2

/-- `TBTC_FOREIGN_TOKEN_CHAIN.to_be_bytes()`: the big-endian bytes of the
`u8` chain id. -/
def foreignChainBytes : Bytes := [TBTC_FOREIGN_TOKEN_CHAIN]

/-- `const TBTC_FOREIGN_TOKEN_ADDRESS: [u8; 32]` — identical byte string
under both the `mainnet` and `solana-devnet` build features. -/
def TBTC_FOREIGN_TOKEN_ADDRESS : Bytes :=
  [0x0, 0x0, 0x0, 0x0, 0x0, 0x0, 0x0, 0x0, 0x0, 0x0, 0x0, 0x0, 0x18, 0x08, 0x4f, 0xbA,
   0x66, 0x6a, 0x33, 0xd3, 0x75, 0x92, 0xfA, 0x26, 0x33, 0xfD, 0x49, 0xa7, 0x4D, 0xD9, 0x3a, 0x88]

/-- Modelled from the spec: the custodian record's fixed seed tag
(`Custodian::SEED_PREFIX`, declared in the state module that is not among
this file's sources; the spec's concrete scenario names the seed
`custodian`). -/
def custodianSeedTag : Bytes := bytesOfString "custodian"

/-- Modelled from the spec: `tbtc::SEED_PREFIX_TBTC_MINT`, the fixed seed
tag of the native mint, scoped to the external tbtc program. -/
def tbtcMintSeedTag : Bytes := bytesOfString "tbtc-mint"

/-- Modelled from the spec: `token_bridge::WrappedMint::SEED_PREFIX`, the
fixed seed tag that is combined with the foreign-chain id and the 32-byte
foreign-token id to derive the wrapped mint. -/
def wrappedMintSeedTag : Bytes := bytesOfString "wrapped"

/-- `b"wrapped-token"`, the literal local seed of the escrow token account
in the source. -/
def wrappedTokenSeedTag : Bytes := bytesOfString "wrapped-token"

/-- Modelled from the spec: `token_bridge::SEED_PREFIX_SENDER`, the bridge's
outbound signing authority seed tag. -/
def senderSeedTag : Bytes := bytesOfString "sender"

/-- Modelled from the spec: `token_bridge::SEED_PREFIX_REDEEMER`, the
bridge's inbound signing authority seed tag. -/
def redeemerSeedTag : Bytes := bytesOfString "redeemer"

/-- ADF: address of the custodian record, `seeds = [Custodian::SEED_PREFIX]`
under this program. -/
def custodianAddress : Pubkey := .pda GATEWAY_PROGRAM_ID [custodianSeedTag]

/-- ADF: address of the native mint,
`seeds = [tbtc::SEED_PREFIX_TBTC_MINT], seeds::program = tbtc::ID`. -/
def tbtcMintAddress : Pubkey := .pda TBTC_PROGRAM_ID [tbtcMintSeedTag]

/-- ADF: address of the wrapped mint, derived from the wrapped-mint seed
tag, the fixed foreign chain id and the fixed 32-byte foreign token id
under the token-bridge program. -/
def wrappedTbtcMintAddress : Pubkey :=
  .pda TOKEN_BRIDGE_PROGRAM_ID [wrappedMintSeedTag, foreignChainBytes, TBTC_FOREIGN_TOKEN_ADDRESS]

/-- ADF: address of the escrow token account, `seeds = [b"wrapped-token"]`
under this program. -/
def wrappedTbtcTokenAddress : Pubkey := .pda GATEWAY_PROGRAM_ID [wrappedTokenSeedTag]

/-- ADF: address of the token-bridge sender authority. -/
def tokenBridgeSenderAddress : Pubkey := .pda TOKEN_BRIDGE_PROGRAM_ID [senderSeedTag]

/-- ADF: address of the token-bridge redeemer authority. -/
def tokenBridgeRedeemerAddress : Pubkey := .pda TOKEN_BRIDGE_PROGRAM_ID [redeemerSeedTag]

/-- The proof-of-derivation nonce (`bump`) associated with a PDA.  Its exact
value never matters to any property below; only that it is a deterministic
function of the derivation inputs. -/
def bumpOf (_program : Nat) (_seeds : List Bytes) : Nat := 255

/-- The `Custodian` account data, with exactly the fields assigned by the
`set_inner` struct literal in the handler body. -/
structure Custodian where
  bump : Nat
  authority : Pubkey
  tbtc_mint : Pubkey
  wrapped_tbtc_mint : Pubkey
  wrapped_tbtc_token : Pubkey
  token_bridge_sender : Pubkey
  token_bridge_sender_bump : Nat
  token_bridge_redeemer : Pubkey
  token_bridge_redeemer_bump : Nat
  minting_limit : Nat
deriving DecidableEq, Repr

/-- The account keys the caller presents for the fields of the `Initialize`
accounts struct (program fields omitted: they are fixed well-known ids). -/
structure PresentedAccounts where
  authority : Pubkey
  custodian : Pubkey
  tbtc_mint : Pubkey
  wrapped_tbtc_mint : Pubkey
  wrapped_tbtc_token : Pubkey
  token_bridge_sender : Pubkey
  token_bridge_redeemer : Pubkey
deriving DecidableEq, Repr

/-- An SPL token account as created by Anchor's
`token::mint = ... , token::authority = ...` init constraints. -/
structure TokenAccount where
  mint : Pubkey
  owner : Pubkey
deriving DecidableEq, Repr

/-- The durable state this instruction can observe or touch: the (possible)
custodian record at its derived address, the (possible) escrow token account
at its derived address, and whether the two dependency mint accounts exist
(i.e. whether the tbtc program and the token bridge finished their own
bootstrap). -/
structure Ledger where
  custodianAt : Option Custodian
  wrappedTokenAt : Option TokenAccount
  tbtcMintInitialized : Bool
  wrappedMintInitialized : Bool
deriving DecidableEq, Repr

/-- The distinct failure conditions of the instruction (see the module
comment for the correspondence to the concrete Anchor/runtime errors). -/
inductive InitError where
  | DerivationMismatch
  | PrerequisiteNotInitialized
  | AlreadyInitialized
  | BumpKeyMissing
deriving DecidableEq, Repr

/-- The `ctx.bumps` map Anchor builds for `Initialize`: one entry per PDA
account field carrying a `bump` constraint, keyed by the field's name. -/
def anchorBumps : List (String × Nat) :=
  [("custodian", bumpOf GATEWAY_PROGRAM_ID [custodianSeedTag]),
   ("tbtc_mint", bumpOf TBTC_PROGRAM_ID [tbtcMintSeedTag]),
   ("wrapped_tbtc_mint",
     bumpOf TOKEN_BRIDGE_PROGRAM_ID [wrappedMintSeedTag, foreignChainBytes, TBTC_FOREIGN_TOKEN_ADDRESS]),
   ("wrapped_tbtc_token", bumpOf GATEWAY_PROGRAM_ID [wrappedTokenSeedTag]),
   ("token_bridge_sender", bumpOf TOKEN_BRIDGE_PROGRAM_ID [senderSeedTag]),
   ("token_bridge_redeemer", bumpOf TOKEN_BRIDGE_PROGRAM_ID [redeemerSeedTag])]

/-- The `Custodian` struct literal passed to `set_inner` in the handler body,
with the three bump values already looked up.  Note the `token_bridge_redeemer`
field: the source assigns `ctx.accounts.token_bridge_sender.key()` to it. -/
def buildCustodianRecord (bump senderBump redeemerBump : Nat)
    (acc : PresentedAccounts) (minting_limit : Nat) : Custodian :=
  { bump := bump
    authority := acc.authority
    tbtc_mint := acc.tbtc_mint
    wrapped_tbtc_mint := acc.wrapped_tbtc_mint
    wrapped_tbtc_token := acc.wrapped_tbtc_token
    token_bridge_sender := acc.token_bridge_sender
    token_bridge_sender_bump := senderBump
    token_bridge_redeemer := acc.token_bridge_sender
    token_bridge_redeemer_bump := redeemerBump
    minting_limit := minting_limit }

/-- The handler body `initialize(ctx, minting_limit)`.  It indexes
`ctx.bumps` with the keys `"config"`, `"token_bridge_sender"` and
`"token_bridge_redeemer"`; in Rust, indexing the map with an absent key
panics and aborts the transaction, modelled as `none`. -/
def initializeHandler (bumps : List (String × Nat)) (acc : PresentedAccounts)
    (minting_limit : Nat) : Option Custodian :=
  match bumps.lookup "config", bumps.lookup "token_bridge_sender",
      bumps.lookup "token_bridge_redeemer" with
  | some b, some sb, some rb => some (buildCustodianRecord b sb rb acc minting_limit)
  | _, _, _ => none

/-- Anchor's account parsing and constraint checks for `Initialize`, in the
order the generated code performs them: first deserialization of the
non-`init` `Account` fields (`tbtc_mint`, `wrapped_tbtc_mint` — failing with
`AccountNotInitialized` when the account does not exist), then the declared
constraints in field order: the custodian's seeds check and
create-if-absent, the two mint seeds checks, the escrow's seeds check and
create-if-absent, and the sender/redeemer seeds checks.  Returns the first
failure, or `none` when every check passes. -/
def validateAccounts (st : Ledger) (acc : PresentedAccounts) : Option InitError :=
  if st.tbtcMintInitialized = false then some .PrerequisiteNotInitialized
  else if st.wrappedMintInitialized = false then some .PrerequisiteNotInitialized
  else if acc.custodian ≠ custodianAddress then some .DerivationMismatch
  else if st.custodianAt.isSome then some .AlreadyInitialized
  else if acc.tbtc_mint ≠ tbtcMintAddress then some .DerivationMismatch
  else if acc.wrapped_tbtc_mint ≠ wrappedTbtcMintAddress then some .DerivationMismatch
  else if acc.wrapped_tbtc_token ≠ wrappedTbtcTokenAddress then some .DerivationMismatch
  else if st.wrappedTokenAt.isSome then some .AlreadyInitialized
  else if acc.token_bridge_sender ≠ tokenBridgeSenderAddress then some .DerivationMismatch
  else if acc.token_bridge_redeemer ≠ tokenBridgeRedeemerAddress then some .DerivationMismatch
  else none

/-- The escrow token account created by the `init, token::mint =
wrapped_tbtc_mint, token::authority = authority` constraints. -/
def initWrappedTbtcToken (acc : PresentedAccounts) : TokenAccount :=
  { mint := acc.wrapped_tbtc_mint, owner := acc.authority }

/-- The whole instruction as one atomic transaction: account validation,
then the handler body; on success the custodian record and the escrow token
account are committed at their derived addresses. -/
def initializeTx (st : Ledger) (acc : PresentedAccounts)
    (minting_limit : Nat) : Except InitError Ledger :=
  match validateAccounts st acc with
  | some e => .error e
  | none =>
    match initializeHandler anchorBumps acc minting_limit with
    | none => .error .BumpKeyMissing
    | some record =>
      .ok { st with custodianAt := some record,
                    wrappedTokenAt := some (initWrappedTbtcToken acc) }

/-- Runtime semantics of submitting the transaction against a ledger: on any
failure every write is reverted, so the pre-state is returned together with
the error; on success the post-state is returned. -/
def runTx (st : Ledger) (acc : PresentedAccounts) (minting_limit : Nat) :
    Ledger × Option InitError :=
  match initializeTx st acc minting_limit with
  | .ok st2 => (st2, none)
  | .error e => (st, some e)

/-- All six caller-presented addresses equal their ADF-derived values. -/
def presentedCorrectly (acc : PresentedAccounts) : Prop :=
  acc.custodian = custodianAddress ∧
  acc.tbtc_mint = tbtcMintAddress ∧
  acc.wrapped_tbtc_mint = wrappedTbtcMintAddress ∧
  acc.wrapped_tbtc_token = wrappedTbtcTokenAddress ∧
  acc.token_bridge_sender = tokenBridgeSenderAddress ∧
  acc.token_bridge_redeemer = tokenBridgeRedeemerAddress

instance (acc : PresentedAccounts) : Decidable (presentedCorrectly acc) := by
  unfold presentedCorrectly; infer_instance

/-- A correct set of presented accounts (the spec's concrete scenario). -/
def goodAccounts : PresentedAccounts :=
  { authority := .external 7
    custodian := custodianAddress
    tbtc_mint := tbtcMintAddress
    wrapped_tbtc_mint := wrappedTbtcMintAddress
    wrapped_tbtc_token := wrappedTbtcTokenAddress
    token_bridge_sender := tokenBridgeSenderAddress
    token_bridge_redeemer := tokenBridgeRedeemerAddress }

/-- A fresh deployment: no custodian record, no escrow account, both
dependency systems bootstrapped. -/
def freshLedger : Ledger :=
  { custodianAt := none
    wrappedTokenAt := none
    tbtcMintInitialized := true
    wrappedMintInitialized := true }

/-- A sample committed custodian record (what the record builder assembles
on the spec's concrete scenario). -/
def sampleRecord : Custodian :=
  buildCustodianRecord (bumpOf GATEWAY_PROGRAM_ID [custodianSeedTag])
    (bumpOf TOKEN_BRIDGE_PROGRAM_ID [senderSeedTag])
    (bumpOf TOKEN_BRIDGE_PROGRAM_ID [redeemerSeedTag]) goodAccounts 1000000

/-- A deployment on which a custodian record has already been committed. -/
def committedLedger : Ledger := { freshLedger with custodianAt := some sampleRecord }

/-- A fresh deployment made before the tbtc program's own bootstrap. -/
def uninitLedger : Ledger := { freshLedger with tbtcMintInitialized := false }

/-- A presented account set whose escrow address is substituted by an
attacker-chosen external key; all other addresses are correct. -/
def badAccounts : PresentedAccounts := { goodAccounts with wrapped_tbtc_token := .external 99 }

set_option maxHeartbeats 1600000 in
/-- Helper: when account validation passes, every caller-presented address
equals the value the ADF independently derives for its role. -/
theorem validate_ok_forces_derived (st : Ledger) (acc : PresentedAccounts)
    (h : validateAccounts st acc = none) : presentedCorrectly acc := by
  unfold validateAccounts at h
  split_ifs at h with a1 a2 a3 a4 a5 a6 a7 a8 a9 a10
  exact ⟨not_not.mp a3, not_not.mp a5, not_not.mp a6, not_not.mp a7,
    not_not.mp a9, not_not.mp a10⟩

/-- Helper: a validation failure is surfaced as the transaction's error and
the pre-state is returned untouched. -/
theorem validate_error_runTx (st : Ledger) (acc : PresentedAccounts)
    (L : Nat) (e : InitError) (h : validateAccounts st acc = some e) :
    runTx st acc L = (st, some e) := by
  simp [runTx, initializeTx, h]

/-- C1: the claim demands that the committed record's `token_bridge_redeemer`
field equal the ADF-derived redeemer address; on the correct presented
accounts the record builder instead stores the sender authority's key, which
differs from the redeemer's own key. -/
theorem redeemer_field_set_from_sender_key :
    sampleRecord.token_bridge_redeemer = tokenBridgeSenderAddress ∧
    goodAccounts.token_bridge_redeemer = tokenBridgeRedeemerAddress ∧
    sampleRecord.token_bridge_redeemer ≠ goodAccounts.token_bridge_redeemer := by
  decide

/-- C2: the bumps map Anchor builds for `Initialize` is keyed by exactly the
six PDA account field names, `"config"` is not among them, so the handler
body's bump lookup has no value and record assembly never completes, for any
presented accounts and any minting limit. -/
theorem handler_bumps_config_lookup_fails (acc : PresentedAccounts) (L : Nat) :
    anchorBumps.map Prod.fst =
      ["custodian", "tbtc_mint", "wrapped_tbtc_mint", "wrapped_tbtc_token",
       "token_bridge_sender", "token_bridge_redeemer"] ∧
    anchorBumps.lookup "config" = none ∧
    initializeHandler anchorBumps acc L = none := by
  refine ⟨by decide, by decide, rfl⟩

/-- C3: from any state already holding a committed custodian record, with the
dependency mints bootstrapped and the correctly derived custodian address
presented, re-invocation fails with AlreadyInitialized and the existing
record is unchanged. -/
theorem reinvocation_fails_already_initialized
    (st : Ledger) (acc : PresentedAccounts) (c : Custodian) (L : Nat)
    (hrec : st.custodianAt = some c)
    (htb : st.tbtcMintInitialized = true)
    (hwm : st.wrappedMintInitialized = true)
    (hcu : acc.custodian = custodianAddress) :
    runTx st acc L = (st, some InitError.AlreadyInitialized) ∧
    (runTx st acc L).fst.custodianAt = some c := by
  have hv : validateAccounts st acc = some InitError.AlreadyInitialized := by
    simp [validateAccounts, htb, hwm, hcu, hrec]
  refine ⟨by simp [runTx, initializeTx, hv], by simp [runTx, initializeTx, hv, hrec]⟩

theorem reinvocation_fails_already_initialized_witness :
    runTx committedLedger goodAccounts 1000000 =
      (committedLedger, some InitError.AlreadyInitialized) ∧
    (runTx committedLedger goodAccounts 1000000).fst.custodianAt = some sampleRecord :=
  reinvocation_fails_already_initialized committedLedger goodAccounts sampleRecord
    1000000 (by decide) (by decide) (by decide) (by decide)

/-- C4: on a fresh deployment with the spec's concrete scenario (all six
addresses correctly derived, minting_limit = 1000000) the instruction does
not commit a record: it aborts with the missing `"config"` bump key, so no
invocation ever succeeds. -/
theorem good_scenario_aborts_on_missing_bump_key :
    runTx freshLedger goodAccounts 1000000 =
      (freshLedger, some InitError.BumpKeyMissing) ∧
    (runTx freshLedger goodAccounts 1000000).fst.custodianAt = none := by
  decide

/-- C5: on a fresh deployment with the dependency mints bootstrapped, any
invocation presenting at least one address different from its ADF-derived
value fails with DerivationMismatch and no custodian record is created. -/
theorem mismatched_address_fails_derivation_mismatch
    (st : Ledger) (acc : PresentedAccounts) (L : Nat)
    (htb : st.tbtcMintInitialized = true)
    (hwm : st.wrappedMintInitialized = true)
    (hcu : st.custodianAt = none)
    (hwt : st.wrappedTokenAt = none)
    (hmis : ¬ presentedCorrectly acc) :
    runTx st acc L = (st, some InitError.DerivationMismatch) ∧
    (runTx st acc L).fst.custodianAt = none := by
  have hv : validateAccounts st acc = some InitError.DerivationMismatch := by
    unfold validateAccounts
    simp [htb, hwm, hcu, hwt]
    by_cases h1 : acc.custodian = custodianAddress <;>
      by_cases h2 : acc.tbtc_mint = tbtcMintAddress <;>
        by_cases h3 : acc.wrapped_tbtc_mint = wrappedTbtcMintAddress <;>
          by_cases h4 : acc.wrapped_tbtc_token = wrappedTbtcTokenAddress <;>
            by_cases h5 : acc.token_bridge_sender = tokenBridgeSenderAddress <;>
              by_cases h6 : acc.token_bridge_redeemer = tokenBridgeRedeemerAddress <;>
                simp [h1, h2, h3, h4, h5, h6] <;>
                  exact hmis ⟨h1, h2, h3, h4, h5, h6⟩
  refine ⟨by simp [runTx, initializeTx, hv], by simp [runTx, initializeTx, hv, hcu]⟩

theorem mismatched_address_fails_derivation_mismatch_witness :
    runTx freshLedger badAccounts 0 =
      (freshLedger, some InitError.DerivationMismatch) ∧
    (runTx freshLedger badAccounts 0).fst.custodianAt = none :=
  mismatched_address_fails_derivation_mismatch freshLedger badAccounts 0
    (by decide) (by decide) (by decide) (by decide) (by decide)

/-- C6: any invocation made while the tbtc program's mint does not yet exist
fails with PrerequisiteNotInitialized and leaves the whole state — in
particular any binding to the native mint — unchanged. -/
theorem before_tbtc_bootstrap_fails_prerequisite
    (st : Ledger) (acc : PresentedAccounts) (L : Nat)
    (h : st.tbtcMintInitialized = false) :
    runTx st acc L = (st, some InitError.PrerequisiteNotInitialized) ∧
    (runTx st acc L).fst = st := by
  have hv : validateAccounts st acc = some InitError.PrerequisiteNotInitialized := by
    simp [validateAccounts, h]
  refine ⟨by simp [runTx, initializeTx, hv], by simp [runTx, initializeTx, hv]⟩

theorem before_tbtc_bootstrap_fails_prerequisite_witness :
    runTx uninitLedger goodAccounts 0 =
      (uninitLedger, some InitError.PrerequisiteNotInitialized) ∧
    (runTx uninitLedger goodAccounts 0).fst = uninitLedger :=
  before_tbtc_bootstrap_fails_prerequisite uninitLedger goodAccounts 0 (by decide)

/-- C7: every invocation that fails verification surfaces the verification
error and returns the pre-state unchanged: no account is created and no
durable field is mutated. -/
theorem verification_failure_leaves_state_unchanged
    (st : Ledger) (acc : PresentedAccounts) (L : Nat) (e : InitError)
    (h : validateAccounts st acc = some e) :
    runTx st acc L = (st, some e) := by
  simp [runTx, initializeTx, h]

theorem verification_failure_leaves_state_unchanged_witness :
    runTx freshLedger badAccounts 7 =
      (freshLedger, some InitError.DerivationMismatch) :=
  verification_failure_leaves_state_unchanged freshLedger badAccounts 7
    InitError.DerivationMismatch (by decide)

/-- C8: in every run that passes account validation, the wrapped-mint account
that was bound equals the fixed address derived from the compile-time
foreign-chain id and foreign-token id constants, so two accepted runs agree
on it whatever their runtime inputs. -/
theorem wrapped_mint_address_fixed_by_constants
    (st1 st2 : Ledger) (acc1 acc2 : PresentedAccounts)
    (h1 : validateAccounts st1 acc1 = none)
    (h2 : validateAccounts st2 acc2 = none) :
    acc1.wrapped_tbtc_mint =
      Pubkey.pda TOKEN_BRIDGE_PROGRAM_ID
        [wrappedMintSeedTag, [TBTC_FOREIGN_TOKEN_CHAIN], TBTC_FOREIGN_TOKEN_ADDRESS] ∧
    acc1.wrapped_tbtc_mint = acc2.wrapped_tbtc_mint := by
  have k1 := (validate_ok_forces_derived st1 acc1 h1).2.2.1
  have k2 := (validate_ok_forces_derived st2 acc2 h2).2.2.1
  exact ⟨k1, k1.trans k2.symm⟩

theorem wrapped_mint_address_fixed_by_constants_witness :
    goodAccounts.wrapped_tbtc_mint =
      Pubkey.pda TOKEN_BRIDGE_PROGRAM_ID
        [wrappedMintSeedTag, [TBTC_FOREIGN_TOKEN_CHAIN], TBTC_FOREIGN_TOKEN_ADDRESS] ∧
    goodAccounts.wrapped_tbtc_mint = goodAccounts.wrapped_tbtc_mint :=
  wrapped_mint_address_fixed_by_constants freshLedger freshLedger
    goodAccounts goodAccounts (by decide) (by decide)

/-- C9: the minting limit is an explicit unsigned (u64) parameter with no
implicit default: the record builder stores exactly the supplied value,
which is non-negative and within the u64 range. -/
theorem minting_limit_explicit_and_in_range
    (b sb rb : Nat) (acc : PresentedAccounts) (L : Nat) (h : L < 2 ^ 64) :
    (buildCustodianRecord b sb rb acc L).minting_limit = L ∧
    0 ≤ (buildCustodianRecord b sb rb acc L).minting_limit ∧
    (buildCustodianRecord b sb rb acc L).minting_limit < 2 ^ 64 :=
  ⟨rfl, Nat.zero_le _, h⟩

theorem minting_limit_explicit_and_in_range_witness :
    (buildCustodianRecord 255 255 255 goodAccounts 1000000).minting_limit = 1000000 ∧
    0 ≤ (buildCustodianRecord 255 255 255 goodAccounts 1000000).minting_limit ∧
    (buildCustodianRecord 255 255 255 goodAccounts 1000000).minting_limit < 2 ^ 64 :=
  minting_limit_explicit_and_in_range 255 255 255 goodAccounts 1000000 (by norm_num)

/-- C10: the escrow token account is created with its mint set to the wrapped
mint and its owner set to the caller-supplied authority signer's key — an
ordinary keypair address, hence not the custodian's derived PDA. -/
theorem escrow_created_with_wrapped_mint_and_signer_authority
    (st : Ledger) (acc : PresentedAccounts) (a : Nat)
    (hs : acc.authority = Pubkey.external a)
    (hv : validateAccounts st acc = none) :
    (initWrappedTbtcToken acc).mint = acc.wrapped_tbtc_mint ∧
    (initWrappedTbtcToken acc).mint = wrappedTbtcMintAddress ∧
    (initWrappedTbtcToken acc).owner = acc.authority ∧
    (initWrappedTbtcToken acc).owner ≠ custodianAddress := by
  have k := (validate_ok_forces_derived st acc hv).2.2.1
  refine ⟨rfl, k, rfl, ?_⟩
  simp [initWrappedTbtcToken, hs, custodianAddress]

theorem escrow_created_with_wrapped_mint_and_signer_authority_witness :
    (initWrappedTbtcToken goodAccounts).mint = goodAccounts.wrapped_tbtc_mint ∧
    (initWrappedTbtcToken goodAccounts).mint = wrappedTbtcMintAddress ∧
    (initWrappedTbtcToken goodAccounts).owner = goodAccounts.authority ∧
    (initWrappedTbtcToken goodAccounts).owner ≠ custodianAddress :=
  escrow_created_with_wrapped_mint_and_signer_authority freshLedger goodAccounts 7
    (by decide) (by decide)
